import Mathlib

/-!
Formal model of the cash-flow decision engine of the finance-mcp-server
repository: the working-capital simulator (`src/src/models/working_capital.py`),
the accounts-payable prioritizer and payment scheduler
(`src/src/models/accounts_payable.py`), and the importance setters of the
accounts-receivable optimizer (`src/src/models/accounts_receivable.py`).

Python floats are modelled as exact rationals (`ℚ`), calendar dates as day
numbers (`ℤ`, differences of dates are day counts exactly as the Python code
computes them via `(d1 - d2).days`), and Python dictionaries either as
association lists (`List (String × ℚ)`, for the objective-weight dict whose
entries are iterated and rebuilt) or as partial maps (`String → Option ℚ`,
for the importance dicts accessed via `.get`). Exceptions are modelled with
`Except` / an error option; a raising call leaves the mutable state unchanged,
which the `apply*` wrappers make explicit.
-/

/-- Errors raised by the Python code: `ValueError` (explicit `raise`) and
`ZeroDivisionError` (unguarded division by zero). -/
inductive PyError where
  | valueError : String → PyError
  | zeroDivisionError : PyError
deriving DecidableEq, Repr

/-- Python `int()` applied to a rational: truncation toward zero. -/
def pyint (q : ℚ) : ℤ := if q < 0 then ⌈q⌉ else ⌊q⌋

namespace WorkingCapitalOptimizer

/-- Mutable state of a `WorkingCapitalOptimizer` instance
(`working_capital.py`, `__init__`): the fields the modelled methods read or
write.  The Neo4j client is an external collaborator and is not part of the
state; invoice lists and the forecast are passed as inputs instead. -/
structure State where
  horizon_days : ℕ
  objective_weights : List (String × ℚ)
  borrowing_rate : ℚ
  investment_rate : ℚ
  min_cash_buffer : ℚ
deriving Repr

/-- The `__init__` defaults (`working_capital.py` lines 25-34). -/
def initState : State :=
  { horizon_days := 90
    objective_weights :=
      [("liquidity", 0.4), ("financing_cost", 0.3),
       ("transaction_cost", 0.1), ("relationship", 0.2)]
    borrowing_rate := 0.0001
    investment_rate := 0.00005
    min_cash_buffer := 100000 }

/-- The required keys checked by `set_objective_weights`
(`working_capital.py` line 43). -/
def required_keys : List String :=
  ["liquidity", "financing_cost", "transaction_cost", "relationship"]

/-- Embedding of `set_objective_weights` (`working_capital.py` lines 36-50).
Returns the new value of `objective_weights`, or the error raised.  The
`total = 0` test models Python raising `ZeroDivisionError` while evaluating
`v/total` in the dict comprehension: after the key check succeeds the dict is
nonempty, so at least one division is executed. -/
def set_objective_weights (weights : List (String × ℚ)) :
    Except PyError (List (String × ℚ)) :=
  if required_keys.all (fun key => weights.any (fun p => p.1 = key)) then
    let total := (weights.map Prod.snd).sum
    if total = 0 then
      Except.error PyError.zeroDivisionError
    else
      Except.ok (weights.map (fun p => (p.1, p.2 / total)))
  else
    Except.error (PyError.valueError "Weights must include all objectives")

/-- State transition of a `set_objective_weights` call: on success the stored
weights are replaced, on an exception the state is unchanged. -/
def applySetObjectiveWeights (st : State) (weights : List (String × ℚ)) :
    State × Option PyError :=
  match set_objective_weights weights with
  | Except.ok w => ({ st with objective_weights := w }, none)
  | Except.error e => (st, some e)

/-- One forecast row: (inflow, outflow) for a day
(the `date` column only aligns rows with days and is dropped here). -/
abbrev ForecastRow := ℚ × ℚ

/-- One iteration of the simulation loop (`working_capital.py` lines 113-127):
from the previous balance and a forecast row, the recorded
(balance, borrowed) pair for the day. -/
def simStep (buffer ar_adjustment ap_adjustment prev : ℚ) (row : ForecastRow) :
    ℚ × ℚ :=
  let new_balance := prev + row.1 * ar_adjustment - row.2 * ap_adjustment
  if new_balance < buffer then (buffer, buffer - new_balance)
  else (new_balance, 0)

/-- The simulation loop over a list of forecast rows, threading the balance. -/
def simLoop (buffer ar_adjustment ap_adjustment : ℚ) :
    ℚ → List ForecastRow → List (ℚ × ℚ)
  | _, [] => []
  | prev, row :: rest =>
    let s := simStep buffer ar_adjustment ap_adjustment prev row
    s :: simLoop buffer ar_adjustment ap_adjustment s.1 rest

/-- The cash-flow simulation of `optimize` (`working_capital.py` lines
108-127): `cash_balance` starts at `[initial_cash]` and `borrowing` at `[0]`
(day 0), then the loop runs for `i in range(len(forecast) - 1)`, i.e. over
every forecast row but the last.  Day `i+1` of the result corresponds to
loop iteration `i`; `cash_balance` is the first projection, `borrowing` the
second. -/
def simulate (buffer ar_adjustment ap_adjustment initial_cash : ℚ)
    (forecast : List ForecastRow) : List (ℚ × ℚ) :=
  (initial_cash, 0) ::
    simLoop buffer ar_adjustment ap_adjustment initial_cash
      (forecast.take (forecast.length - 1))

/-- Scenario adjustments of `optimize` (`working_capital.py` lines 92-105):
returns `(ar_adjustment, ap_adjustment)` and the updated state; the
`conservative` and `aggressive` branches mutate `self.min_cash_buffer` in
place. -/
def scenarioAdjust (scenario : String) (st : State) : (ℚ × ℚ) × State :=
  if scenario = "conservative" then
    ((0.9, 1.0), { st with min_cash_buffer := st.min_cash_buffer * 1.5 })
  else if scenario = "aggressive" then
    ((1.0, 0.8), { st with min_cash_buffer := st.min_cash_buffer * 0.7 })
  else
    ((0.95, 0.95), st)

/-- The state-and-projection part of `optimize` (`working_capital.py` lines
74-133): applies the scenario adjustments (mutating the buffer), then runs
the simulation from the hard-coded `initial_cash = 500000`.  Returns the
`(balance, borrowed)` projection and the post-call state.  Recommendation
generation and summary metrics consume this projection and are not needed by
the claims below. -/
def optimize (st : State) (scenario : String) (forecast : List ForecastRow) :
    List (ℚ × ℚ) × State :=
  let a := scenarioAdjust scenario st
  let initial_cash : ℚ := 500000
  (simulate a.2.min_cash_buffer a.1.1 a.1.2 initial_cash forecast, a.2)

end WorkingCapitalOptimizer

namespace AccountsPayableOptimizer

/-- A payable invoice as the optimizer reads it (`accounts_payable.py`):
`amount`, `dueDate` (a day number; the Python code parses a date string),
optional early-payment terms `(earlyPaymentDate, discountRate)` — both keys
present or both absent per the data model — and the supplier id that the
Neo4j lookup in `_prioritize_invoices` resolves (`none` models a lookup
miss). -/
structure Invoice where
  id : String
  amount : ℚ
  dueDate : ℤ
  early : Option (ℤ × ℚ)
  supplier : Option String
deriving Repr, DecidableEq

/-- Importance lookup `self.supplier_importance.get(supplier_id, 0.5)`
(`accounts_payable.py` line 129 and 249): a missing supplier id or an id
absent from the map defaults to 0.5. -/
def importanceOf (m : String → Option ℚ) : Option String → ℚ
  | none => 0.5
  | some s => (m s).getD 0.5

/-- Embedding of `set_supplier_importance` (`accounts_payable.py` lines
30-41): rejects scores outside [0,1], otherwise stores the score under the
id. -/
def set_supplier_importance (m : String → Option ℚ) (supplier_id : String)
    (importance_score : ℚ) : Except PyError (String → Option ℚ) :=
  if 0 ≤ importance_score ∧ importance_score ≤ 1 then
    Except.ok (fun k => if k = supplier_id then some importance_score else m k)
  else
    Except.error (PyError.valueError "Importance score must be between 0 and 1")

/-- State transition of a `set_supplier_importance` call: the stored map is
replaced on success and untouched when the call raises. -/
def applySetSupplierImportance (m : String → Option ℚ) (supplier_id : String)
    (importance_score : ℚ) : (String → Option ℚ) × Option PyError :=
  match set_supplier_importance m supplier_id importance_score with
  | Except.ok m2 => (m2, none)
  | Except.error e => (m, some e)

/-- Base priority from days-until-due (`accounts_payable.py` lines 214-228). -/
def basePriority (days_until_due : ℤ) : ℚ :=
  if days_until_due < 0 then 100
  else if days_until_due < 7 then 90
  else if days_until_due < 14 then 80
  else if days_until_due < 30 then 70
  else 60

/-- Discount adjustment (`accounts_payable.py` lines 231-246): zero without
early-payment terms or when the discount window has lapsed; `20·rate·100`
when it expires within 7 days; `10·rate·100` otherwise. -/
def discountPriority (today : ℤ) : Option (ℤ × ℚ) → ℚ
  | none => 0
  | some e =>
    let days_until_discount := e.1 - today
    if days_until_discount < 0 then 0
    else if days_until_discount < 7 then 20 * e.2 * 100
    else 10 * e.2 * 100

/-- Final priority of one invoice (`accounts_payable.py` lines 209-253):
base band plus discount adjustment plus `importance × 20`. -/
def priorityOf (m : String → Option ℚ) (today : ℤ) (inv : Invoice) : ℚ :=
  basePriority (inv.dueDate - today) + discountPriority today inv.early
    + importanceOf m inv.supplier * 20

/-- An invoice decorated by `_prioritize_invoices`
(`accounts_payable.py` lines 255-260). -/
structure Prioritized where
  invoice : Invoice
  supplier_id : Option String
  priority : ℚ
  days_until_due : ℤ
deriving Repr, DecidableEq

/-- Embedding of `_prioritize_invoices` (`accounts_payable.py` lines
185-265): decorate every invoice with its priority, then sort by priority,
highest first (Python `list.sort(key=..., reverse=True)` is a stable
descending sort, as is `mergeSort` with the `≥` comparison). -/
def prioritizeInvoices (m : String → Option ℚ) (today : ℤ)
    (invoices : List Invoice) : List Prioritized :=
  (invoices.map (fun inv =>
      { invoice := inv
        supplier_id := inv.supplier
        priority := priorityOf m today inv
        days_until_due := inv.dueDate - today })).mergeSort
    (fun a b => decide (b.priority ≤ a.priority))

/-- One line of the payment schedule (`accounts_payable.py` lines 155-165).
Note the source emits `discount_amount = amount × discountRate` whenever the
invoice has discount terms, captured or not. -/
structure PaymentEntry where
  invoice_id : String
  supplier_id : Option String
  amount : ℚ
  payment_amount : ℚ
  due_date : ℤ
  payment_date : ℤ
  payment_type : String
  priority : ℚ
  discount_amount : ℚ
deriving Repr, DecidableEq

/-- Per-invoice decision of `optimize_payment_schedule`
(`accounts_payable.py` lines 81-165): from the configuration
(borrowing rate, buffer), the importance map, today, the prioritized invoice
and the running `remaining_cash`, produce the schedule entry and the new
`remaining_cash`. -/
def scheduleInvoice (borrowing_rate min_cash_buffer : ℚ)
    (m : String → Option ℚ) (today : ℤ) (p : Prioritized)
    (remaining_cash : ℚ) : PaymentEntry × ℚ :=
  let inv := p.invoice
  let amount := inv.amount
  let days_until_due := inv.dueDate - today
  let mk : ℤ → ℚ → String → ℚ → PaymentEntry := fun pd pa pt da =>
    { invoice_id := inv.id, supplier_id := p.supplier_id, amount := amount
      payment_amount := pa, due_date := inv.dueDate, payment_date := pd
      payment_type := pt, priority := p.priority, discount_amount := da }
  match inv.early with
  | some e =>
    let discount_amount := amount * e.2
    let days_until_discount := e.1 - today
    let discount_benefit := discount_amount
    let days_early := days_until_due - days_until_discount
    let opportunity_cost := amount * borrowing_rate * (days_early : ℚ)
    if discount_benefit > opportunity_cost ∧ remaining_cash ≥ amount then
      (mk e.1 (amount - discount_amount) "early_with_discount" discount_amount,
       remaining_cash - (amount - discount_amount))
    else
      (mk inv.dueDate amount "on_due_date" discount_amount,
       remaining_cash - amount)
  | none =>
    let importance := importanceOf m inv.supplier
    if importance > 0.8 then
      if days_until_due ≤ 5 ∧ remaining_cash ≥ amount then
        (mk today amount "early_important_supplier" 0, remaining_cash - amount)
      else
        (mk inv.dueDate amount "on_due_date" 0, remaining_cash - amount)
    else if remaining_cash < min_cash_buffer + amount then
      let delay_days := min 10 (max 1 (pyint (30 * (1 - importance))))
      (mk (inv.dueDate + delay_days) amount "delayed_cash_constraint" 0,
       remaining_cash)
    else
      (mk inv.dueDate amount "on_due_date" 0, remaining_cash - amount)

/-- Schedule-building loop of `optimize_payment_schedule`
(`accounts_payable.py` lines 71-165): prioritize, then fold `scheduleInvoice`
over the prioritized list, threading `remaining_cash` from the initial
`cash_position`.  Returns the schedule and the final remaining cash. -/
def optimize_payment_schedule (borrowing_rate min_cash_buffer : ℚ)
    (m : String → Option ℚ) (today : ℤ) (cash_position : ℚ)
    (invoices : List Invoice) : List PaymentEntry × ℚ :=
  let rec go : ℚ → List Prioritized → List PaymentEntry × ℚ
    | cash, [] => ([], cash)
    | cash, p :: rest =>
      let s := scheduleInvoice borrowing_rate min_cash_buffer m today p cash
      let r := go s.2 rest
      (s.1 :: r.1, r.2)
  go cash_position (prioritizeInvoices m today invoices)

end AccountsPayableOptimizer

namespace AccountsReceivableOptimizer

/-- Embedding of `set_customer_importance` (`accounts_receivable.py` lines
61-72): identical validation and store logic as the supplier setter. -/
def set_customer_importance (m : String → Option ℚ) (customer_id : String)
    (importance_score : ℚ) : Except PyError (String → Option ℚ) :=
  if 0 ≤ importance_score ∧ importance_score ≤ 1 then
    Except.ok (fun k => if k = customer_id then some importance_score else m k)
  else
    Except.error (PyError.valueError "Importance score must be between 0 and 1")

/-- State transition of a `set_customer_importance` call. -/
def applySetCustomerImportance (m : String → Option ℚ) (customer_id : String)
    (importance_score : ℚ) : (String → Option ℚ) × Option PyError :=
  match set_customer_importance m customer_id importance_score with
  | Except.ok m2 => (m2, none)
  | Except.error e => (m, some e)

end AccountsReceivableOptimizer

open WorkingCapitalOptimizer AccountsPayableOptimizer AccountsReceivableOptimizer

/-- Sum of the values of a weight dict after dividing every value by `t`. -/
lemma sum_map_snd_div (l : List (String × ℚ)) (t : ℚ) :
    ((l.map (fun p => (p.1, p.2 / t))).map Prod.snd).sum
      = (l.map Prod.snd).sum / t := by
  induction l with
  | nil => simp
  | cons h tl ih =>
    simp only [List.map_cons, List.sum_cons, ih, add_div]

/-- The Boolean key check of `set_objective_weights` as a proposition. -/
lemma required_keys_all_iff (weights : List (String × ℚ)) :
    required_keys.all (fun key => weights.any (fun p => p.1 = key)) = true
      ↔ ∀ k ∈ required_keys, ∃ p ∈ weights, p.1 = k := by
  simp [List.all_eq_true, List.any_eq_true]

/-- C6: `set_objective_weights` raises a `ValueError` (leaving the stored
weights unchanged) when one of the four required keys is missing, and
otherwise replaces the stored weights by the input weights each divided by
their total; for positive input values the stored weights then sum to 1
exactly, hence to 1.0 within 1e-6. -/
theorem set_objective_weights_spec (st : WorkingCapitalOptimizer.State)
    (weights : List (String × ℚ)) :
    (¬ (∀ k ∈ required_keys, ∃ p ∈ weights, p.1 = k) →
      applySetObjectiveWeights st weights =
        (st, some (PyError.valueError "Weights must include all objectives"))) ∧
    ((∀ k ∈ required_keys, ∃ p ∈ weights, p.1 = k) →
      (∀ p ∈ weights, 0 < p.2) →
      (applySetObjectiveWeights st weights).2 = none ∧
      (applySetObjectiveWeights st weights).1.objective_weights
        = weights.map (fun p => (p.1, p.2 / (weights.map Prod.snd).sum)) ∧
      |((applySetObjectiveWeights st weights).1.objective_weights.map
          Prod.snd).sum - 1| ≤ 1 / 1000000) := by
  constructor
  · intro h
    have hb : ¬ (required_keys.all (fun key => weights.any (fun p => p.1 = key))
        = true) := fun hc => h ((required_keys_all_iff weights).mp hc)
    simp [applySetObjectiveWeights, set_objective_weights, hb]
  · intro hk hpos
    have hb : required_keys.all (fun key => weights.any (fun p => p.1 = key))
        = true := (required_keys_all_iff weights).mpr hk
    have hmem : ∃ p ∈ weights, p.1 = "liquidity" := hk "liquidity" (by simp [required_keys])
    have hne : weights ≠ [] := by
      obtain ⟨p, hp, -⟩ := hmem
      exact List.ne_nil_of_mem hp
    have hsum : 0 < (weights.map Prod.snd).sum := by
      refine List.sum_pos _ ?_ (by simpa using hne)
      intro x hx
      obtain ⟨p, hp, rfl⟩ := List.mem_map.mp hx
      exact hpos p hp
    have ht : (weights.map Prod.snd).sum ≠ 0 := ne_of_gt hsum
    refine ⟨?_, ?_, ?_⟩
    · simp [applySetObjectiveWeights, set_objective_weights, hb, ht]
    · simp [applySetObjectiveWeights, set_objective_weights, hb, ht]
    · have h2 : (applySetObjectiveWeights st weights).1.objective_weights
          = weights.map fun p => (p.1, p.2 / (weights.map Prod.snd).sum) := by
        simp [applySetObjectiveWeights, set_objective_weights, hb, ht]
      rw [h2, sum_map_snd_div, div_self ht]
      norm_num

/-- C10: with all four required keys present but values summing to 0, the
division `v/total` in `set_objective_weights` raises `ZeroDivisionError` and
the stored weights are left unchanged. -/
theorem set_objective_weights_zero_total (st : WorkingCapitalOptimizer.State)
    (weights : List (String × ℚ))
    (hk : ∀ k ∈ required_keys, ∃ p ∈ weights, p.1 = k)
    (h0 : (weights.map Prod.snd).sum = 0) :
    applySetObjectiveWeights st weights = (st, some PyError.zeroDivisionError) := by
  have hb : required_keys.all (fun key => weights.any (fun p => p.1 = key))
      = true := (required_keys_all_iff weights).mpr hk
  simp [applySetObjectiveWeights, set_objective_weights, hb, h0]

/-- Witness for C10: the all-zero weight dict over the four required keys
leaves the state unchanged and reports `ZeroDivisionError`. -/
theorem set_objective_weights_zero_total_witness :
    applySetObjectiveWeights initState
        [("liquidity", 0), ("financing_cost", 0),
         ("transaction_cost", 0), ("relationship", 0)]
      = (initState, some PyError.zeroDivisionError) :=
  set_objective_weights_zero_total initState
    [("liquidity", 0), ("financing_cost", 0),
     ("transaction_cost", 0), ("relationship", 0)]
    (by intro k hk; fin_cases hk <;> simp [required_keys]) (by simp)

/-- C7: both importance setters raise a `ValueError` and leave the importance
map unchanged for scores outside [0,1], and for scores in [0,1] they store
exactly the given score under the given id (other ids untouched). -/
theorem importance_setters_spec (m : String → Option ℚ) (id : String) (s : ℚ) :
    (¬ (0 ≤ s ∧ s ≤ 1) →
      applySetSupplierImportance m id s
          = (m, some (PyError.valueError
              "Importance score must be between 0 and 1")) ∧
      applySetCustomerImportance m id s
          = (m, some (PyError.valueError
              "Importance score must be between 0 and 1"))) ∧
    (0 ≤ s ∧ s ≤ 1 →
      (applySetSupplierImportance m id s).2 = none ∧
      (applySetSupplierImportance m id s).1 id = some s ∧
      (∀ k, k ≠ id → (applySetSupplierImportance m id s).1 k = m k) ∧
      (applySetCustomerImportance m id s).2 = none ∧
      (applySetCustomerImportance m id s).1 id = some s ∧
      (∀ k, k ≠ id → (applySetCustomerImportance m id s).1 k = m k)) := by
  constructor
  · intro h
    constructor
    · simp [applySetSupplierImportance, set_supplier_importance, h]
    · simp [applySetCustomerImportance, set_customer_importance, h]
  · intro h
    refine ⟨?_, ?_, ?_, ?_, ?_, ?_⟩ <;>
      simp [applySetSupplierImportance, set_supplier_importance,
        applySetCustomerImportance, set_customer_importance, h]
    · intro k hk
      simp [hk]
    · intro k hk
      simp [hk]

/-- C8: each `optimize` call with scenario `conservative` multiplies the
stored `min_cash_buffer` by 1.5 and each call with `aggressive` multiplies it
by 0.7, the change persists in the post-call state and compounds across
repeated calls, and a `base` call leaves the whole state unchanged. -/
theorem optimize_buffer_scaling (st : WorkingCapitalOptimizer.State)
    (f g : List ForecastRow) :
    (WorkingCapitalOptimizer.optimize st "conservative" f).2.min_cash_buffer
        = st.min_cash_buffer * 1.5 ∧
    (WorkingCapitalOptimizer.optimize st "aggressive" f).2.min_cash_buffer
        = st.min_cash_buffer * 0.7 ∧
    (WorkingCapitalOptimizer.optimize st "base" f).2 = st ∧
    (WorkingCapitalOptimizer.optimize
        (WorkingCapitalOptimizer.optimize st "conservative" f).2
        "conservative" g).2.min_cash_buffer
      = st.min_cash_buffer * 1.5 * 1.5 ∧
    (WorkingCapitalOptimizer.optimize
        (WorkingCapitalOptimizer.optimize st "aggressive" f).2
        "aggressive" g).2.min_cash_buffer
      = st.min_cash_buffer * 0.7 * 0.7 := by
  refine ⟨?_, ?_, ?_, ?_, ?_⟩ <;>
    simp [WorkingCapitalOptimizer.optimize, scenarioAdjust]

/-- C4: `_prioritize_invoices` returns the same invoices (a permutation of
the input), each annotated with priority = due-date band + discount
adjustment + importance × 20 (default importance 0.5), descending-sorted by
priority with no upper clamp (the formula below is exactly the recorded
priority, un-truncated). -/
theorem prioritize_invoices_spec (m : String → Option ℚ) (today : ℤ)
    (invoices : List AccountsPayableOptimizer.Invoice) :
    ((prioritizeInvoices m today invoices).map Prioritized.invoice).Perm
        invoices ∧
    (∀ p ∈ prioritizeInvoices m today invoices,
      p.priority =
        (if p.invoice.dueDate - today < 0 then 100
         else if p.invoice.dueDate - today < 7 then 90
         else if p.invoice.dueDate - today < 14 then 80
         else if p.invoice.dueDate - today < 30 then 70 else (60 : ℚ))
        + (match p.invoice.early with
           | none => 0
           | some e =>
             if e.1 - today < 0 then 0
             else if e.1 - today < 7 then 20 * e.2 * 100
             else 10 * e.2 * 100)
        + (match p.invoice.supplier with
           | none => (0.5 : ℚ)
           | some sid => (m sid).getD 0.5) * 20) ∧
    (prioritizeInvoices m today invoices).Pairwise
      (fun a b => b.priority ≤ a.priority) := by
  refine ⟨?_, ?_, ?_⟩
  · have h := (List.mergeSort_perm
      (invoices.map (fun inv =>
        ({ invoice := inv, supplier_id := inv.supplier
           priority := priorityOf m today inv
           days_until_due := inv.dueDate - today } : Prioritized)))
      (fun a b => decide (b.priority ≤ a.priority))).map Prioritized.invoice
    rw [prioritizeInvoices]
    simpa [List.map_map, Function.comp_def] using h
  · intro p hp
    rw [prioritizeInvoices, List.mem_mergeSort] at hp
    obtain ⟨inv, hinv, rfl⟩ := List.mem_map.mp hp
    simp [priorityOf, basePriority, discountPriority, importanceOf]
  · have h := @List.sorted_mergeSort Prioritized
      (fun a b : Prioritized => decide (b.priority ≤ a.priority))
      (fun a b c hab hbc => by
        simp only [decide_eq_true_eq] at hab hbc ⊢
        exact le_trans hbc hab)
      (fun a b => by
        simp only [Bool.or_eq_true, decide_eq_true_eq]
        exact le_total b.priority a.priority)
      (invoices.map (fun inv =>
        ({ invoice := inv, supplier_id := inv.supplier
           priority := priorityOf m today inv
           days_until_due := inv.dueDate - today } : Prioritized)))
    rw [prioritizeInvoices]
    exact h.imp (fun hab => by simpa using hab)

/-- C9: of two payable invoices identical in amount, discount terms and
supplier importance (same supplier field, hence same looked-up importance)
and differing only in days-until-due, the one due sooner never gets a
strictly lower priority. -/
theorem priority_monotone_due_date (m : String → Option ℚ) (today : ℤ)
    (i1 i2 : AccountsPayableOptimizer.Invoice)
    (_hamount : i1.amount = i2.amount) (hearly : i1.early = i2.early)
    (hsupplier : i1.supplier = i2.supplier)
    (hdue : i1.dueDate < i2.dueDate) :
    priorityOf m today i2 ≤ priorityOf m today i1 := by
  have hbase : basePriority (i2.dueDate - today)
      ≤ basePriority (i1.dueDate - today) := by
    unfold basePriority
    split_ifs <;> first | (exfalso; omega) | norm_num
  unfold priorityOf
  rw [hearly, hsupplier]
  linarith

/-- Witness for C9 at a concrete pair of invoices: same amount, same
discount terms, same supplier; due in 3 days versus due in 20 days. -/
theorem priority_monotone_due_date_witness :
    priorityOf (fun _ => none) 0
        { id := "b", amount := 1000, dueDate := 20,
          early := some (2, 0.02), supplier := some "s1" }
      ≤ priorityOf (fun _ => none) 0
        { id := "a", amount := 1000, dueDate := 3,
          early := some (2, 0.02), supplier := some "s1" } :=
  priority_monotone_due_date (fun _ => none) 0
    { id := "a", amount := 1000, dueDate := 3,
      early := some (2, 0.02), supplier := some "s1" }
    { id := "b", amount := 1000, dueDate := 20,
      early := some (2, 0.02), supplier := some "s1" }
    rfl rfl rfl (by norm_num)

/-- Discount branch of `scheduleInvoice`, taken: benefit exceeds opportunity
cost and cash covers the full amount. -/
lemma scheduleInvoice_discount_taken (br buf : ℚ) (m : String → Option ℚ)
    (today : ℤ) (p : Prioritized) (e : ℤ × ℚ) (cash : ℚ)
    (hd : p.invoice.early = some e)
    (hc : p.invoice.amount * e.2 > p.invoice.amount * br
        * (((p.invoice.dueDate - today) - (e.1 - today) : ℤ) : ℚ))
    (hcash : cash ≥ p.invoice.amount) :
    scheduleInvoice br buf m today p cash =
      ({ invoice_id := p.invoice.id, supplier_id := p.supplier_id
         amount := p.invoice.amount
         payment_amount := p.invoice.amount - p.invoice.amount * e.2
         due_date := p.invoice.dueDate, payment_date := e.1
         payment_type := "early_with_discount"
         priority := p.priority, discount_amount := p.invoice.amount * e.2 },
       cash - (p.invoice.amount - p.invoice.amount * e.2)) := by
  simp only [scheduleInvoice, hd]
  split_ifs with h
  · rfl
  · exact absurd ⟨hc, hcash⟩ h

/-- Discount branch of `scheduleInvoice`, declined: the invoice is paid in
full on the due date (the emitted record still carries the would-be discount
amount). -/
lemma scheduleInvoice_discount_declined (br buf : ℚ) (m : String → Option ℚ)
    (today : ℤ) (p : Prioritized) (e : ℤ × ℚ) (cash : ℚ)
    (hd : p.invoice.early = some e)
    (hc : ¬ (p.invoice.amount * e.2 > p.invoice.amount * br
        * (((p.invoice.dueDate - today) - (e.1 - today) : ℤ) : ℚ)
        ∧ cash ≥ p.invoice.amount)) :
    scheduleInvoice br buf m today p cash =
      ({ invoice_id := p.invoice.id, supplier_id := p.supplier_id
         amount := p.invoice.amount
         payment_amount := p.invoice.amount
         due_date := p.invoice.dueDate, payment_date := p.invoice.dueDate
         payment_type := "on_due_date"
         priority := p.priority, discount_amount := p.invoice.amount * e.2 },
       cash - p.invoice.amount) := by
  simp only [scheduleInvoice, hd]
  rw [if_neg hc]

/-- C3: for an invoice with early-payment terms the scheduler pays on the
discount date, net of discount, exactly when the discount benefit exceeds
the opportunity cost and the cash at that point covers the full amount, and
otherwise pays the full amount on the due date; with amount 10000, rate
0.02, 10 days early and borrowing rate 0.0001 the discount is taken exactly
when cash is at least 10000. -/
theorem schedule_discount_decision (br buf : ℚ) (m : String → Option ℚ)
    (today : ℤ) (p : Prioritized) (e : ℤ × ℚ) (cash : ℚ)
    (hd : p.invoice.early = some e) :
    ((p.invoice.amount * e.2 > p.invoice.amount * br
        * (((p.invoice.dueDate - today) - (e.1 - today) : ℤ) : ℚ)
        ∧ cash ≥ p.invoice.amount)
      ↔ (scheduleInvoice br buf m today p cash).1.payment_type
          = "early_with_discount") ∧
    (p.invoice.amount * e.2 > p.invoice.amount * br
        * (((p.invoice.dueDate - today) - (e.1 - today) : ℤ) : ℚ)
        ∧ cash ≥ p.invoice.amount →
      (scheduleInvoice br buf m today p cash).1.payment_date = e.1 ∧
      (scheduleInvoice br buf m today p cash).1.payment_amount
        = p.invoice.amount - p.invoice.amount * e.2) ∧
    (¬ (p.invoice.amount * e.2 > p.invoice.amount * br
        * (((p.invoice.dueDate - today) - (e.1 - today) : ℤ) : ℚ)
        ∧ cash ≥ p.invoice.amount) →
      (scheduleInvoice br buf m today p cash).1.payment_date
          = p.invoice.dueDate ∧
      (scheduleInvoice br buf m today p cash).1.payment_amount
          = p.invoice.amount ∧
      (scheduleInvoice br buf m today p cash).1.payment_type
          = "on_due_date") ∧
    (∀ (q : Prioritized) (cash2 : ℚ),
      q.invoice.amount = 10000 →
      q.invoice.early = some (q.invoice.dueDate - 10, 0.02) →
      ((scheduleInvoice 0.0001 buf m today q cash2).1.payment_type
          = "early_with_discount" ↔ cash2 ≥ 10000)) := by
  refine ⟨⟨?_, ?_⟩, ?_, ?_, ?_⟩
  · rintro ⟨hc, hcash⟩
    rw [scheduleInvoice_discount_taken br buf m today p e cash hd hc hcash]
  · intro h
    by_contra hc
    rw [scheduleInvoice_discount_declined br buf m today p e cash hd hc] at h
    simp at h
  · rintro ⟨hc, hcash⟩
    rw [scheduleInvoice_discount_taken br buf m today p e cash hd hc hcash]
    exact ⟨rfl, rfl⟩
  · intro hc
    rw [scheduleInvoice_discount_declined br buf m today p e cash hd hc]
    exact ⟨rfl, rfl, rfl⟩
  · intro q cash2 hq1 hq2
    have hde : (((q.invoice.dueDate - today)
        - ((q.invoice.dueDate - 10 : ℤ) - today) : ℤ) : ℚ) = 10 := by
      push_cast
      ring
    have hbc : q.invoice.amount * ((q.invoice.dueDate - 10, (0.02 : ℚ)).2)
        > q.invoice.amount * (0.0001 : ℚ)
          * (((q.invoice.dueDate - today)
              - ((q.invoice.dueDate - 10, (0.02 : ℚ)).1 - today) : ℤ) : ℚ) := by
      simp only [hq1, hde]
      norm_num
    constructor
    · intro h
      by_contra hc2
      have hnc : ¬ (q.invoice.amount * ((q.invoice.dueDate - 10, (0.02 : ℚ)).2)
          > q.invoice.amount * (0.0001 : ℚ)
            * (((q.invoice.dueDate - today)
                - ((q.invoice.dueDate - 10, (0.02 : ℚ)).1 - today) : ℤ) : ℚ)
          ∧ cash2 ≥ q.invoice.amount) := by
        rintro ⟨-, hge⟩
        rw [hq1] at hge
        exact hc2 hge
      rw [scheduleInvoice_discount_declined 0.0001 buf m today q _ cash2 hq2
        hnc] at h
      simp at h
    · intro hc2
      rw [scheduleInvoice_discount_taken 0.0001 buf m today q _ cash2 hq2 hbc
        (by rw [hq1]; exact hc2)]

/-- A sample 10000 invoice with a 2% discount for paying 10 days early,
due on day 20 with today = day 0, used by the C3 witness. -/
def sampleDiscountInvoice : AccountsPayableOptimizer.Invoice :=
  { id := "i1", amount := 10000, dueDate := 20,
    early := some (10, 0.02), supplier := none }

/-- The sample invoice as `_prioritize_invoices` decorates it. -/
def sampleDiscountPrioritized : Prioritized :=
  { invoice := sampleDiscountInvoice, supplier_id := none,
    priority := 0, days_until_due := 20 }

/-- Witness for C3: the sample invoice with borrowing rate 0.0001 and cash
exactly 10000 is scheduled with the discount taken. -/
theorem schedule_discount_decision_witness :
    (scheduleInvoice 0.0001 100000 (fun _ => none) 0
        sampleDiscountPrioritized 10000).1.payment_type
      = "early_with_discount" := by
  have h := (schedule_discount_decision 0.0001 100000 (fun _ => none) 0
      sampleDiscountPrioritized (10, 0.02) 10000 rfl).1
  exact h.mp ⟨by norm_num [sampleDiscountPrioritized, sampleDiscountInvoice],
    by norm_num [sampleDiscountPrioritized, sampleDiscountInvoice]⟩

/-- C5 (amended): for an invoice without discount terms whose supplier
importance is not above 0.8, when remaining cash is below
`min_cash_buffer + amount` the payment is scheduled
`min(10, max(1, int(30 × (1 − importance))))` days after the due date —
Python `int()` truncation, which for these nonnegative values is the floor —
with payment type `delayed_cash_constraint`, and remaining cash is not
reduced. -/
theorem schedule_delay_cash_constraint (br buf : ℚ) (m : String → Option ℚ)
    (today : ℤ) (p : Prioritized) (cash : ℚ)
    (hnd : p.invoice.early = none)
    (himp : importanceOf m p.invoice.supplier ≤ 0.8)
    (hcash : cash < buf + p.invoice.amount) :
    scheduleInvoice br buf m today p cash =
      ({ invoice_id := p.invoice.id, supplier_id := p.supplier_id
         amount := p.invoice.amount
         payment_amount := p.invoice.amount
         due_date := p.invoice.dueDate
         payment_date := p.invoice.dueDate
           + min 10 (max 1 ⌊30 * (1 - importanceOf m p.invoice.supplier)⌋)
         payment_type := "delayed_cash_constraint"
         priority := p.priority, discount_amount := 0 },
       cash) := by
  have h8 : ¬ importanceOf m p.invoice.supplier > 0.8 := not_lt.mpr himp
  have hnn : ¬ (30 * (1 - importanceOf m p.invoice.supplier) < 0) := by
    intro hlt
    nlinarith
  simp only [scheduleInvoice, hnd]
  rw [if_neg h8, if_pos hcash]
  simp only [pyint, if_neg hnn]

/-- The importance map used by the C5 witness and counterexample: one
supplier with importance 0.78. -/
def sampleImportanceMap : String → Option ℚ :=
  fun s => if s = "s1" then some 0.78 else none

/-- A discount-free invoice of supplier s1, due on day 20, used by the C5
witness and counterexample. -/
def sampleDelayInvoice : AccountsPayableOptimizer.Invoice :=
  { id := "i2", amount := 5000, dueDate := 20,
    early := none, supplier := some "s1" }

/-- The discount-free sample invoice as `_prioritize_invoices` decorates
it. -/
def sampleDelayPrioritized : Prioritized :=
  { invoice := sampleDelayInvoice, supplier_id := some "s1",
    priority := 0, days_until_due := 20 }

/-- Witness for C5 (amended): importance 0.78 and no cash gives a delay of
`min(10, max(1, ⌊30 × 0.22⌋)) = 6` days past the due date, type
`delayed_cash_constraint`, cash untouched. -/
theorem schedule_delay_cash_constraint_witness :
    (scheduleInvoice 0.0001 100000 sampleImportanceMap 0
        sampleDelayPrioritized 0).1.payment_date = 26 ∧
    (scheduleInvoice 0.0001 100000 sampleImportanceMap 0
        sampleDelayPrioritized 0).1.payment_type = "delayed_cash_constraint" ∧
    (scheduleInvoice 0.0001 100000 sampleImportanceMap 0
        sampleDelayPrioritized 0).2 = 0 := by
  have h := schedule_delay_cash_constraint 0.0001 100000 sampleImportanceMap 0
    sampleDelayPrioritized 0 rfl
    (by norm_num [importanceOf, sampleImportanceMap, sampleDelayPrioritized,
      sampleDelayInvoice])
    (by norm_num [sampleDelayPrioritized, sampleDelayInvoice])
  rw [h]
  refine ⟨?_, rfl, rfl⟩
  have himp : importanceOf sampleImportanceMap (some "s1") = 0.78 := by
    norm_num [importanceOf, sampleImportanceMap]
  norm_num [sampleDelayPrioritized, sampleDelayInvoice, himp,
    min_def, max_def]

/-- Counterexample for C5 as stated: with importance 0.78 the code delays by
`int(30 × 0.22) = 6` days (payment day 26), while rounding as the claim
states would delay by `round(6.6) = 7` days (payment day 27). -/
theorem schedule_delay_round_counterexample :
    (scheduleInvoice 0.0001 100000 sampleImportanceMap 0
        sampleDelayPrioritized 0).1.payment_date = 26 ∧
    sampleDelayInvoice.dueDate
        + min 10 (max 1 (round ((30 : ℚ) * (1 - 0.78)))) = 27 ∧
    (26 : ℤ) ≠ 27 := by
  refine ⟨?_, ?_, by norm_num⟩
  · have himp : ¬ importanceOf sampleImportanceMap (some "s1") > 0.8 := by
      norm_num [importanceOf, sampleImportanceMap]
    have himp2 : importanceOf sampleImportanceMap (some "s1") = 0.78 := by
      norm_num [importanceOf, sampleImportanceMap]
    simp only [scheduleInvoice, sampleDelayPrioritized, sampleDelayInvoice]
    rw [if_neg himp]
    norm_num [pyint, himp2, min_def, max_def]
  · norm_num [sampleDelayInvoice, round_eq]

/-- Day `i` of the simulation loop is one `simStep` from the balance
recorded for day `i - 1` (the starting balance when `i = 0`). -/
lemma simLoop_getD (b ar ap : ℚ) (rows : List ForecastRow) :
    ∀ (prev : ℚ) (i : ℕ), i < rows.length →
      (simLoop b ar ap prev rows).getD i (0, 0) =
        simStep b ar ap
          (if i = 0 then prev
           else ((simLoop b ar ap prev rows).getD (i - 1) (0, 0)).1)
          (rows.getD i (0, 0)) := by
  induction rows with
  | nil =>
    intro prev i h
    simp at h
  | cons row rest ih =>
    intro prev i h
    match i with
    | 0 => simp [simLoop]
    | j + 1 =>
      have hj : j < rest.length := by simpa using h
      have hstep := ih (simStep b ar ap prev row).1 j hj
      match j with
      | 0 =>
        simp only [simLoop] at hstep ⊢
        simpa using hstep
      | k + 1 =>
        simp only [simLoop] at hstep ⊢
        simpa using hstep

/-- C1: in the cash-flow simulation, for every simulated day `i` (a loop
iteration, recorded at index `i + 1` of the projection) whose raw balance —
previous recorded balance plus adjusted inflow minus adjusted outflow — is
below the buffer, the recorded pair is (buffer, buffer − raw); otherwise it
is (raw, 0). -/
theorem simulate_borrowing_trigger (buffer ar ap initial : ℚ)
    (forecast : List ForecastRow) (i : ℕ)
    (hi : i < (forecast.take (forecast.length - 1)).length) :
    (((simulate buffer ar ap initial forecast).getD i (0, 0)).1
        + ((forecast.take (forecast.length - 1)).getD i (0, 0)).1 * ar
        - ((forecast.take (forecast.length - 1)).getD i (0, 0)).2 * ap
          < buffer →
      (simulate buffer ar ap initial forecast).getD (i + 1) (0, 0)
        = (buffer,
           buffer - (((simulate buffer ar ap initial forecast).getD
                i (0, 0)).1
             + ((forecast.take (forecast.length - 1)).getD i (0, 0)).1 * ar
             - ((forecast.take (forecast.length - 1)).getD i (0, 0)).2
                 * ap))) ∧
    (¬ (((simulate buffer ar ap initial forecast).getD i (0, 0)).1
        + ((forecast.take (forecast.length - 1)).getD i (0, 0)).1 * ar
        - ((forecast.take (forecast.length - 1)).getD i (0, 0)).2 * ap
          < buffer) →
      (simulate buffer ar ap initial forecast).getD (i + 1) (0, 0)
        = (((simulate buffer ar ap initial forecast).getD i (0, 0)).1
            + ((forecast.take (forecast.length - 1)).getD i (0, 0)).1 * ar
            - ((forecast.take (forecast.length - 1)).getD i (0, 0)).2 * ap,
           0)) := by
  have key : (simulate buffer ar ap initial forecast).getD (i + 1) (0, 0)
      = simStep buffer ar ap
          (((simulate buffer ar ap initial forecast).getD i (0, 0)).1)
          ((forecast.take (forecast.length - 1)).getD i (0, 0)) := by
    have h := simLoop_getD buffer ar ap (forecast.take (forecast.length - 1))
      initial i hi
    cases i with
    | zero => simpa [simulate] using h
    | succ k => simpa [simulate] using h
  constructor
  · intro hraw
    rw [key]
    simp only [simStep]
    rw [if_pos hraw]
  · intro hraw
    rw [key]
    simp only [simStep]
    rw [if_neg hraw]

/-- Witness for C1: on a two-row forecast with outflow 600000 on the first
day, initial cash 500000 and buffer 100000, the raw day-1 balance −100000 is
below the buffer and day 1 records (100000, 200000). -/
theorem simulate_borrowing_trigger_witness :
    (WorkingCapitalOptimizer.simulate 100000 1 1 500000
        [(0, 600000), (0, 0)]).getD 1 (0, 0) = (100000, 200000) := by
  have h := (simulate_borrowing_trigger 100000 1 1 500000
      [(0, 600000), (0, 0)] 0 (by simp)).1
    (by norm_num [simulate, simLoop, simStep])
  rw [h]
  norm_num [simulate, simLoop, simStep]

/-- C2 (amended): the simulation loop runs `len(forecast) - 1` iterations,
so the last forecast row is never applied (the projection does not depend on
it); consequently the scenario of the claim needs a second, trailing
forecast day: with forecast [(0, 600000), (0, 0)], initial cash 500000,
buffer 100000 and both adjustment factors 1, day 1 records the clamped
balance 100000 and borrowed amount 200000 from the raw balance −100000. -/
theorem simulate_drops_last_day_scenario :
    (∀ (buffer ar ap initial : ℚ) (rows : List ForecastRow)
        (r1 r2 : ForecastRow),
      simulate buffer ar ap initial (rows ++ [r1])
        = simulate buffer ar ap initial (rows ++ [r2])) ∧
    WorkingCapitalOptimizer.simulate 100000 1 1 500000 [(0, 600000), (0, 0)]
      = [(500000, 0), (100000, 200000)] := by
  constructor
  · intro buffer ar ap initial rows r1 r2
    have h1 : ∀ r : ForecastRow,
        (rows ++ [r]).take ((rows ++ [r]).length - 1) = rows := by
      intro r
      rw [List.length_append]
      simp [List.take_left]
    rw [simulate, simulate, h1 r1, h1 r2]
  · norm_num [simulate, simLoop, simStep]

/-- Counterexample for C2 as stated: on the one-day forecast of the claim
the loop body never runs — the projection is just the day-0 initial cash
entry, with no day-1 record and no borrowing at all. -/
theorem simulate_one_day_forecast_counterexample :
    WorkingCapitalOptimizer.simulate 100000 1 1 500000 [(0, 600000)]
      = [(500000, 0)] ∧
    ((WorkingCapitalOptimizer.simulate 100000 1 1 500000
        [(0, 600000)]).map Prod.snd).sum = 0 := by
  constructor
  · norm_num [simulate, simLoop]
  · norm_num [simulate, simLoop]

/-- Witness for C6: the weight dict (2, 1, 1, 1) over the four required
keys is stored normalized to (0.4, 0.2, 0.2, 0.2), and a dict missing the
`relationship` key raises a `ValueError` leaving the state unchanged. -/
theorem set_objective_weights_spec_witness :
    (applySetObjectiveWeights initState
        [("liquidity", 2), ("financing_cost", 1),
         ("transaction_cost", 1), ("relationship", 1)]).1.objective_weights
      = [("liquidity", 2 / 5), ("financing_cost", 1 / 5),
         ("transaction_cost", 1 / 5), ("relationship", 1 / 5)] ∧
    applySetObjectiveWeights initState [("liquidity", 1)]
      = (initState,
         some (PyError.valueError "Weights must include all objectives")) := by
  constructor
  · have h := (set_objective_weights_spec initState
        [("liquidity", 2), ("financing_cost", 1),
         ("transaction_cost", 1), ("relationship", 1)]).2
      (by intro k hk; fin_cases hk <;> simp [required_keys])
      (by intro p hp; fin_cases hp <;> norm_num)
    rw [h.2.1]
    norm_num
  · exact (set_objective_weights_spec initState [("liquidity", 1)]).1
      (by
        intro hall
        obtain ⟨p, hp, hp1⟩ := hall "relationship" (by simp [required_keys])
        fin_cases hp
        simp at hp1)

/-- Witness for C7: score 2 is rejected by both setters without touching the
empty map, and score 0.75 is stored under the given id. -/
theorem importance_setters_spec_witness :
    (applySetSupplierImportance (fun _ => none) "s1" 2
        = ((fun _ => none), some (PyError.valueError
            "Importance score must be between 0 and 1")) ∧
      applySetCustomerImportance (fun _ => none) "s1" 2
        = ((fun _ => none), some (PyError.valueError
            "Importance score must be between 0 and 1"))) ∧
    ((applySetSupplierImportance (fun _ => none) "s1" 0.75).1 "s1"
        = some 0.75 ∧
      (applySetCustomerImportance (fun _ => none) "s1" 0.75).1 "s1"
        = some 0.75) := by
  constructor
  · exact (importance_setters_spec (fun _ => none) "s1" 2).1
      (by norm_num)
  · have h := (importance_setters_spec (fun _ => none) "s1" 0.75).2
      (by norm_num)
    exact ⟨h.2.1, h.2.2.2.2.1⟩
